import Mathlib

/-
Verification development for the deviceauth repository.

Part 1 embeds `jwt_agent.go`: the JWT agent that issues and validates
RS256-signed tokens.  The third-party jwt-go library (Parse, MapClaims
validation, the ValidationError bitmask) is modelled symbolically but
faithfully to its v3 control flow; RSA signatures are modelled in the
standard symbolic style (a signature records the signing key identity and
the signed content, and verification compares both).

Part 2 embeds the data model and the 1.5.0 backfill migration exercised by
the repository's migration test.  The migration body itself is not among
the provided sources (only its test is), so those definitions are modelled
from the spec, as marked on each.
-/

/-- A JSON value as it appears in a decoded claim set (Go decodes JSON
numbers to float64; all times in this development are integral). -/
inductive JSONValue where
  | str (s : String)
  | num (n : Int)
  | bool (b : Bool)
  | null
deriving DecidableEq, Repr

/-- Claim-set lookup, modelling Go map indexing `claims[k]`. -/
def lookupClaim (k : String) : List (String × JSONValue) → Option JSONValue
  | [] => none
  | (k', v) :: rest => if k = k' then some v else lookupClaim k rest

/-- Signing algorithms registered with jwt-go that this model covers.
`RS256`/`RS384`/`RS512` are the methods of concrete Go type
`*jwt.SigningMethodRSA`. -/
inductive Alg where
  | RS256 | RS384 | RS512 | HS256 | ES256 | noneAlg
deriving DecidableEq, Repr

/-- Whether the method's concrete type is `*jwt.SigningMethodRSA`
(the type assertion in the agent's key function). -/
def Alg.isRSAMethod : Alg → Bool
  | .RS256 | .RS384 | .RS512 => true
  | _ => false

/-- The `Method.Alg()` strings. -/
def Alg.algName : Alg → String
  | .RS256 => "RS256"
  | .RS384 => "RS384"
  | .RS512 => "RS512"
  | .HS256 => "HS256"
  | .ES256 => "ES256"
  | .noneAlg => "none"

/-- Symbolic RSA private key: `keyId` stands for the key material. -/
structure RSAPrivateKey where
  keyId : Nat
deriving DecidableEq, Repr

/-- Symbolic RSA public key. -/
structure RSAPublicKey where
  keyId : Nat
deriving DecidableEq, Repr

/-- Model of `&j.privKey.PublicKey`: the public half of a private key. -/
def RSAPrivateKey.publicKey (k : RSAPrivateKey) : RSAPublicKey :=
  ⟨k.keyId⟩

/-- Symbolic signature: records which key signed and what was signed
(the header algorithm together with the claim set). -/
structure Signature where
  keyId : Nat
  content : Alg × List (String × JSONValue)
deriving DecidableEq, Repr

/-- The wire form of a token string: either it does not split/decode into
a JWS at all, or it carries a header algorithm, a claim set and a
signature. -/
inductive TokenString where
  | malformed
  | token (alg : Alg) (claims : List (String × JSONValue)) (sig : Signature)
deriving DecidableEq, Repr

/-! ### jwt-go v3 model -/

def ValidationErrorMalformed : Nat := 1
def ValidationErrorUnverifiable : Nat := 2
def ValidationErrorSignatureInvalid : Nat := 4
def ValidationErrorExpired : Nat := 16
def ValidationErrorIssuedAt : Nat := 32
def ValidationErrorNotValidYet : Nat := 128

/-- The inner error recorded inside a jwt-go `ValidationError`. -/
inductive InnerErr where
  | unexpectedSigningMethod (alg : String)
  | tokenExpiredMsg
  | tokenUsedBeforeIssued
  | tokenNotValidYet
  | sigInvalid
deriving DecidableEq, Repr

/-- jwt-go's `ValidationError`: an inner error plus a bitmask of flags. -/
structure ValidationError where
  inner : Option InnerErr
  errors : Nat
deriving DecidableEq, Repr

/-- Model of `MapClaims.VerifyExpiresAt(now, false)` via `verifyExp`:
fails only when `exp` is present as a nonzero number strictly in the
past — jwt-go's `verifyExp` special-cases `exp == 0` as unset and passes
it when the claim is not required. -/
def expOk (now : Int) (cs : List (String × JSONValue)) : Bool :=
  match lookupClaim "exp" cs with
  | some (.num e) => if e = 0 then true else decide (now ≤ e)
  | _ => true

/-- Model of `MapClaims.VerifyIssuedAt(now, false)` via `verifyIat`,
with the same `iat == 0`-as-unset special case. -/
def iatOk (now : Int) (cs : List (String × JSONValue)) : Bool :=
  match lookupClaim "iat" cs with
  | some (.num i) => if i = 0 then true else decide (i ≤ now)
  | _ => true

/-- Model of `MapClaims.VerifyNotBefore(now, false)` via `verifyNbf`,
with the same `nbf == 0`-as-unset special case. -/
def nbfOk (now : Int) (cs : List (String × JSONValue)) : Bool :=
  match lookupClaim "nbf" cs with
  | some (.num n) => if n = 0 then true else decide (n ≤ now)
  | _ => true

/-- Model of `MapClaims.Valid()`: accumulates the exp/iat/nbf flags, the inner
error being the last one recorded. `errors = 0` means the claims are
valid. -/
def claimsValid (now : Int) (cs : List (String × JSONValue)) : ValidationError :=
  let v1 : ValidationError :=
    if expOk now cs then ⟨none, 0⟩
    else ⟨some .tokenExpiredMsg, 0 ||| ValidationErrorExpired⟩
  let v2 : ValidationError :=
    if iatOk now cs then v1
    else ⟨some .tokenUsedBeforeIssued, v1.errors ||| ValidationErrorIssuedAt⟩
  let v3 : ValidationError :=
    if nbfOk now cs then v2
    else ⟨some .tokenNotValidYet, v2.errors ||| ValidationErrorNotValidYet⟩
  v3

/-- RSA signature verification (`SigningMethodRSA.Verify`), symbolically:
the signature was produced by the matching private key over exactly this
header algorithm and claim set. -/
def sigVerify (pub : RSAPublicKey) (alg : Alg) (cs : List (String × JSONValue))
    (sig : Signature) : Bool :=
  decide (sig.keyId = pub.keyId ∧ sig.content = (alg, cs))

/-- Result of `jwt.Parse` with the agent's key function: either a valid
token's claim set (`err == nil`, `token.Valid`), or a `ValidationError`. -/
inductive ParseResult where
  | ok (claims : List (String × JSONValue))
  | error (e : ValidationError)
deriving DecidableEq, Repr

/-- Model of `jwt.Parse(tokenString, keyfunc)` where the key function rejects any
method that is not `*jwt.SigningMethodRSA` and otherwise returns the
agent's public key.  Mirrors jwt-go v3 `Parser.ParseWithClaims`: a
malformed string fails with `ValidationErrorMalformed`; a key-function
error returns immediately with `ValidationErrorUnverifiable` (claims are
never validated); otherwise claim validation and signature verification
both run, accumulating their flags into one `ValidationError`. -/
def jwtParse (pub : RSAPublicKey) (now : Int) : TokenString → ParseResult
  | .malformed => .error ⟨none, ValidationErrorMalformed⟩
  | .token alg cs sig =>
    if alg.isRSAMethod then
      let cv := claimsValid now cs
      let vErr :=
        if sigVerify pub alg cs sig then cv
        else ⟨some .sigInvalid, cv.errors ||| ValidationErrorSignatureInvalid⟩
      if vErr.errors = 0 then .ok cs else .error vErr
    else
      .error ⟨some (.unexpectedSigningMethod alg.algName), ValidationErrorUnverifiable⟩

/-! ### jwt_agent.go -/

/-- The agent's failure modes.  `tokenExpired` is `ErrTokenExpired`;
`tokenInvalid e` is `errors.Wrap(err, "token invalid")` around the parse
error; `tokenInvalidClaims` is the final `errors.New("Token invalid")`
for a missing or non-string jti. -/
inductive JWTError where
  | tokenExpired
  | tokenInvalid (e : ValidationError)
  | tokenInvalidClaims
deriving DecidableEq, Repr

structure JWTAgentConfig where
  ServerPrivKeyPath : String
  ExpirationTimeout : Int
  Issuer : String
deriving Repr

structure JWTAgent where
  privKey : RSAPrivateKey
  issuer : String
  expTimeout : Int
deriving Repr

/-- Model of `jwt.StandardClaims`, the fields jwt_agent.go sets. -/
structure StandardClaims where
  ExpiresAt : Int
  Id : String
  Issuer : String
  Subject : String
deriving DecidableEq, Repr

/-- JSON marshalling of `StandardClaims`: every field carries
`omitempty`, so zero values are dropped from the encoded claim set. -/
def StandardClaims.encode (c : StandardClaims) : List (String × JSONValue) :=
  (if c.ExpiresAt = 0 then [] else [("exp", .num c.ExpiresAt)]) ++
  (if c.Id = "" then [] else [("jti", .str c.Id)]) ++
  (if c.Issuer = "" then [] else [("iss", .str c.Issuer)]) ++
  (if c.Subject = "" then [] else [("sub", .str c.Subject)])

/-- Lower-case hex digit. -/
def hexDigit (n : Nat) : Char :=
  if n < 10 then Char.ofNat (48 + n) else Char.ofNat (87 + n)

/-- Formatting of one byte as two hex digits, Go verb `%x`. -/
def hexByte (b : Nat) : List Char :=
  [hexDigit (b / 16 % 16), hexDigit (b % 16)]

/-- Model of `uuid.NewV4().String()` over 16 random bytes `r 0 .. r 15`
(satori/go.uuid): byte 6 gets version nibble 4
(`b&0x0f | 0x40 = b%16 + 64`), byte 8 gets the RFC 4122 variant
(`b&0x3f | 0x80 = b%64 + 128`), and the bytes are formatted
8-4-4-4-12 in hex. -/
def uuidV4Chars (r : Nat → Nat) : List Char :=
  hexByte (r 0) ++ hexByte (r 1) ++ hexByte (r 2) ++ hexByte (r 3) ++ ['-'] ++
  hexByte (r 4) ++ hexByte (r 5) ++ ['-'] ++
  hexByte (r 6 % 16 + 64) ++ hexByte (r 7) ++ ['-'] ++
  hexByte (r 8 % 64 + 128) ++ hexByte (r 9) ++ ['-'] ++
  hexByte (r 10) ++ hexByte (r 11) ++ hexByte (r 12) ++ hexByte (r 13) ++
  hexByte (r 14) ++ hexByte (r 15)

/-- Embeds `generateTokenId`: a fresh UUID v4 string, the randomness source
passed explicitly. -/
def generateTokenId (r : Nat → Nat) : String :=
  String.mk (uuidV4Chars r)

/-- Model of `token.SignedString(j.privKey)` for a token built by
`jwt.NewWithClaims`: the wire token carries the header algorithm, the
encoded claims, and a signature by the private key over both. -/
def signedString (alg : Alg) (cs : List (String × JSONValue))
    (key : RSAPrivateKey) : TokenString :=
  .token alg cs ⟨key.keyId, (alg, cs)⟩

/-- Modelled from the spec: the `Token` value returned by issuance
(`NewToken` and the `Token` struct live outside the provided sources);
§3 gives its fields as the token identifier (jti), the subject, and the
signed string. -/
structure Token where
  id : String
  subject : String
  issuedString : TokenString
deriving DecidableEq, Repr

/-- Modelled from the spec: `NewToken(jti, devId, tokenString)`. -/
def NewToken (jti devId : String) (ts : TokenString) : Token :=
  ⟨jti, devId, ts⟩

/-- Embeds `GenerateTokenSignRS256`: build standard claims (issuer, expiry
`now + timeout`, subject, fresh jti), sign with RS256 under the agent's
private key, return the token.  System time and the random bytes are
explicit arguments; the symbolic signing step cannot fail. -/
def GenerateTokenSignRS256 (j : JWTAgent) (devId : String) (now : Int)
    (rnd : Nat → Nat) : Token :=
  let jti := generateTokenId rnd
  let claims : StandardClaims :=
    { Issuer := j.issuer
      ExpiresAt := now + j.expTimeout
      Subject := devId
      Id := jti }
  let tokenString := signedString .RS256 claims.encode j.privKey
  NewToken jti devId tokenString

/-- Embeds `ValidateTokenSignRS256`: parse/verify; on a parse error return
`ErrTokenExpired` when the expired flag is set, otherwise the wrapped
"token invalid" error; on success return the string jti claim, or
"Token invalid" when it is absent or not a string.  The returned pair is
(jti, error). -/
def ValidateTokenSignRS256 (j : JWTAgent) (now : Int) (ts : TokenString) :
    String × Option JWTError :=
  match jwtParse j.privKey.publicKey now ts with
  | .error e =>
    if e.errors &&& ValidationErrorExpired ≠ 0 then ("", some .tokenExpired)
    else ("", some (.tokenInvalid e))
  | .ok cs =>
    match lookupClaim "jti" cs with
    | some (.str s) => (s, none)
    | _ => ("", some .tokenInvalidClaims)

/-! ### Key loading (`getRSAPrivKey`, `NewJWTAgent`) -/

/-- Symbolic contents of a file on disk: either they do not decode as a
PEM block, or they decode to a first block with a type and DER bytes. -/
inductive FileContents where
  | notPEM (raw : List Nat)
  | pemBlock (type_ : String) (bytes : List Nat)
deriving DecidableEq, Repr

/-- Model of `pem.Decode` on the symbolic contents. -/
def pemDecode : FileContents → Option (String × List Nat)
  | .notPEM _ => none
  | .pemBlock t b => some (t, b)

/-- Failure modes of key loading.  `keyReadFailed` wraps the I/O error
(`ErrMsgPrivKeyReadFailed`), `keyNotPEMEncoded` is
`ErrMsgPrivKeyNotPEMEncoded`, `keyTypeMismatch got` is the
"unknown server private key type" error, `parseFailed` carries the error
`x509.ParsePKCS1PrivateKey` returned unchanged. -/
inductive KeyError where
  | keyReadFailed
  | keyNotPEMEncoded
  | keyTypeMismatch (got : String)
  | parseFailed (msg : String)
deriving DecidableEq, Repr

/-- Embeds `getRSAPrivKey`: read the file (the file system passed as a
function, `none` modelling a read error), PEM-decode, require block type
"RSA PRIVATE KEY", then hand the block bytes to the PKCS#1 parser
(passed as a function modelling `x509.ParsePKCS1PrivateKey`). -/
def getRSAPrivKey (readFile : String → Option FileContents)
    (parsePKCS1 : List Nat → Except String RSAPrivateKey)
    (privKeyPath : String) : Except KeyError RSAPrivateKey :=
  match readFile privKeyPath with
  | none => .error .keyReadFailed
  | some pemData =>
    match pemDecode pemData with
    | none => .error .keyNotPEMEncoded
    | some (t, bytes) =>
      if t ≠ "RSA PRIVATE KEY" then .error (.keyTypeMismatch t)
      else
        match parsePKCS1 bytes with
        | .ok k => .ok k
        | .error m => .error (.parseFailed m)

/-- Embeds `NewJWTAgent`: load the key, then build the agent from the config. -/
def NewJWTAgent (readFile : String → Option FileContents)
    (parsePKCS1 : List Nat → Except String RSAPrivateKey)
    (c : JWTAgentConfig) : Except KeyError JWTAgent :=
  match getRSAPrivKey readFile parsePKCS1 c.ServerPrivKeyPath with
  | .error e => .error e
  | .ok priv =>
    .ok { privKey := priv, issuer := c.Issuer, expTimeout := c.ExpirationTimeout }

/-! ### Part 2: device data model and the 1.5.0 backfill migration -/

/-- Device / auth-set status. -/
inductive Status where
  | accepted | pending | rejected
deriving DecidableEq, Repr

/-- Embeds `model.Device` as used by the migration test. -/
structure Device where
  Id : String
  IdData : String
  IdDataStruct : List (String × String)
  IdDataSha256 : List Nat
  PubKey : String
  Status : Status
  Decommissioning : Bool
  CreatedTs : Int
  UpdatedTs : Int
deriving DecidableEq, Repr

/-- Embeds `model.AuthSet` as used by the migration test. -/
structure AuthSet where
  Id : String
  DeviceId : String
  IdData : String
  IdDataStruct : List (String × String)
  IdDataSha256 : List Nat
  PubKey : String
  Status : Status
  Timestamp : Int
deriving DecidableEq, Repr

/-! #### Flat JSON object parser (the identity canonicalizer's decoding) -/

/-- Read the characters of a JSON string body up to the closing quote,
handling the \" and \\ escapes. -/
def takeStringChars : List Char → Option (List Char × List Char)
  | [] => none
  | '"' :: rest => some ([], rest)
  | '\\' :: '"' :: rest =>
    (takeStringChars rest).map (fun p => ('"' :: p.1, p.2))
  | '\\' :: '\\' :: rest =>
    (takeStringChars rest).map (fun p => ('\\' :: p.1, p.2))
  | '\\' :: _ => none
  | c :: rest =>
    (takeStringChars rest).map (fun p => (c :: p.1, p.2))

/-- Skip JSON whitespace. -/
def skipWS : List Char → List Char
  | ' ' :: rest => skipWS rest
  | '\t' :: rest => skipWS rest
  | '\n' :: rest => skipWS rest
  | '\r' :: rest => skipWS rest
  | cs => cs

/-- Parse one `"key":"value"` pair. -/
def parsePair (cs : List Char) : Option ((String × String) × List Char) :=
  match skipWS cs with
  | '"' :: cs1 =>
    match takeStringChars cs1 with
    | none => none
    | some (key, cs2) =>
      match skipWS cs2 with
      | ':' :: cs3 =>
        match skipWS cs3 with
        | '"' :: cs4 =>
          match takeStringChars cs4 with
          | none => none
          | some (val, cs5) => some ((String.mk key, String.mk val), cs5)
        | _ => none
      | _ => none
  | _ => none

/-- Parse the pairs after the opening brace, `fuel` bounding the number
of pairs. -/
def parsePairs : Nat → List Char → Option (List (String × String) × List Char)
  | 0, _ => none
  | fuel + 1, cs =>
    match parsePair cs with
    | none => none
    | some (p, rest) =>
      match skipWS rest with
      | ',' :: rest' =>
        match parsePairs fuel rest' with
        | none => none
        | some (ps, rest'') => some (p :: ps, rest'')
      | '\x7d' :: rest' => some ([p], rest')
      | _ => none

/-- Parse a flat JSON object of string attributes. -/
def parseFlatObject (s : String) : Option (List (String × String)) :=
  match skipWS s.data with
  | '\x7b' :: cs =>
    match skipWS cs with
    | '\x7d' :: rest => if skipWS rest = [] then some [] else none
    | _ =>
      match parsePairs (s.length + 1) cs with
      | none => none
      | some (ps, rest) => if skipWS rest = [] then some ps else none
  | _ => none

/-- Lexicographic code-point comparison of key characters. -/
def charsLe : List Char → List Char → Bool
  | [], _ => true
  | _ :: _, [] => false
  | a :: as, b :: bs =>
    if a.toNat < b.toNat then true
    else if b.toNat < a.toNat then false
    else charsLe as bs

/-- Lexicographic order on keys (byte order for ASCII keys). -/
def keyLe (s t : String) : Bool := charsLe s.data t.data

/-- Insert into a key-sorted association list. -/
def insertByKey (p : String × String) : List (String × String) → List (String × String)
  | [] => [p]
  | q :: qs => if keyLe p.1 q.1 then p :: q :: qs else q :: insertByKey p qs

/-- Sort an association list by key. -/
def sortByKey : List (String × String) → List (String × String)
  | [] => []
  | p :: ps => insertByKey p (sortByKey ps)

/-- Modelled from the spec: the Identity Canonicalizer's `decode`
(not among the provided sources; §4.1: parse the payload as a flat
key-to-string mapping with deterministic key ordering, failing when it
cannot be so parsed). -/
def canonicalize (s : String) : Option (List (String × String)) :=
  (parseFlatObject s).map sortByKey

/-! #### SHA-256 over byte lists -/

def pow32 : Nat := 4294967296

/-- Right rotation of a 32-bit word (for `x < 2^32`). -/
def rotr32 (n x : Nat) : Nat :=
  x / 2 ^ n + x % 2 ^ n * 2 ^ (32 - n)

def smallSigma0 (x : Nat) : Nat := rotr32 7 x ^^^ rotr32 18 x ^^^ x / 2 ^ 3
def smallSigma1 (x : Nat) : Nat := rotr32 17 x ^^^ rotr32 19 x ^^^ x / 2 ^ 10
def bigSigma0 (x : Nat) : Nat := rotr32 2 x ^^^ rotr32 13 x ^^^ rotr32 22 x
def bigSigma1 (x : Nat) : Nat := rotr32 6 x ^^^ rotr32 11 x ^^^ rotr32 25 x

def sha256K : List Nat :=
  [1116352408, 1899447441, 3049323471, 3921009573, 961987163,
   1508970993, 2453635748, 2870763221, 3624381080, 310598401,
   607225278, 1426881987, 1925078388, 2162078206, 2614888103,
   3248222580, 3835390401, 4022224774, 264347078, 604807628,
   770255983, 1249150122, 1555081692, 1996064986, 2554220882,
   2821834349, 2952996808, 3210313671, 3336571891, 3584528711,
   113926993, 338241895, 666307205, 773529912, 1294757372,
   1396182291, 1695183700, 1986661051, 2177026350, 2456956037,
   2730485921, 2820302411, 3259730800, 3345764771, 3516065817,
   3600352804, 4094571909, 275423344, 430227734, 506948616,
   659060556, 883997877, 958139571, 1322822218, 1537002063,
   1747873779, 1955562222, 2024104815, 2227730452, 2361852424,
   2428436474, 2756734187, 3204031479, 3329325298]

def sha256H0 : List Nat :=
  [1779033703, 3144134277, 1013904242, 2773480762,
   1359893119, 2600822924, 528734635, 1541459225]

/-- Pad a byte message: 0x80, zeros, 64-bit big-endian bit length. -/
def sha256Pad (msg : List Nat) : List Nat :=
  let L := msg.length
  let k := (64 - (L + 9) % 64) % 64
  let bits := 8 * L
  msg ++ [0x80] ++ List.replicate k 0 ++
    [bits / 2 ^ 56 % 256, bits / 2 ^ 48 % 256, bits / 2 ^ 40 % 256,
     bits / 2 ^ 32 % 256, bits / 2 ^ 24 % 256, bits / 2 ^ 16 % 256,
     bits / 2 ^ 8 % 256, bits % 256]

/-- Group bytes into big-endian 32-bit words. -/
def bytesToWords : List Nat → List Nat
  | a :: b :: c :: d :: rest => (((a * 256 + b) * 256 + c) * 256 + d) :: bytesToWords rest
  | _ => []

/-- Split a padded message into 64-byte blocks, `fuel` bounding the
number of blocks. -/
def chunks64 : Nat → List Nat → List (List Nat)
  | 0, _ => []
  | _, [] => []
  | fuel + 1, l => l.take 64 :: chunks64 fuel (l.drop 64)

/-- Extend the 16-word schedule by `fuel` more words. -/
def extendSchedule (fuel : Nat) (w : List Nat) : List Nat :=
  match fuel with
  | 0 => w
  | f + 1 =>
    let n := w.length
    let nw := (w.getD (n - 16) 0 + smallSigma0 (w.getD (n - 15) 0) +
               w.getD (n - 7) 0 + smallSigma1 (w.getD (n - 2) 0)) % pow32
    extendSchedule f (w ++ [nw])

/-- One compression round. -/
def sha256Round (w : List Nat) (st : List Nat) (i : Nat) : List Nat :=
  match st with
  | [a, b, c, d, e, f, g, h] =>
    let t1 := (h + bigSigma1 e + ((e &&& f) ^^^ ((e ^^^ (pow32 - 1)) &&& g)) +
               sha256K.getD i 0 + w.getD i 0) % pow32
    let t2 := (bigSigma0 a + ((a &&& b) ^^^ (a &&& c) ^^^ (b &&& c))) % pow32
    [(t1 + t2) % pow32, a, b, c, (d + t1) % pow32, e, f, g]
  | st => st

/-- Process one 64-byte block. -/
def sha256Block (st : List Nat) (block : List Nat) : List Nat :=
  let w := extendSchedule 48 (bytesToWords block)
  let st2 := (List.range 64).foldl (sha256Round w) st
  (List.zip st st2).map (fun p => (p.1 + p.2) % pow32)

/-- Big-endian bytes of a 32-bit word. -/
def wordBytes (x : Nat) : List Nat :=
  [x / 2 ^ 24 % 256, x / 2 ^ 16 % 256, x / 2 ^ 8 % 256, x % 256]

/-- SHA-256 digest (32 bytes) of a byte message. -/
def sha256Bytes (msg : List Nat) : List Nat :=
  let padded := sha256Pad msg
  let st := (chunks64 (padded.length / 64 + 1) padded).foldl sha256Block sha256H0
  (st.map wordBytes).flatten

/-- SHA-256 of a string's bytes (the identity payloads are ASCII, so
code points are the UTF-8 bytes). -/
def sha256OfString (s : String) : List Nat :=
  sha256Bytes (s.data.map Char.toNat)

/-! #### Status derivation and the 1.5.0 migration -/

/-- Decidable equality of `Except` results. -/
instance {ε α : Type} [DecidableEq ε] [DecidableEq α] :
    DecidableEq (Except ε α) := fun x y =>
  match x, y with
  | .ok a, .ok b =>
    if h : a = b then .isTrue (congrArg Except.ok h)
    else .isFalse (fun hc => h (Except.ok.inj hc))
  | .error e, .error f =>
    if h : e = f then .isTrue (congrArg Except.error h)
    else .isFalse (fun hc => h (Except.error.inj hc))
  | .ok _, .error _ => .isFalse (fun hc => Except.noConfusion hc)
  | .error _, .ok _ => .isFalse (fun hc => Except.noConfusion hc)

/-- The Auth-Set State Engine's consistency violation (§4.2/§7): more
than one accepted auth set must be surfaced, never silently resolved. -/
inductive StatusErr where
  | multipleAcceptedAuthSets
deriving DecidableEq, Repr

/-- Modelled from the spec: the Auth-Set State Engine's derivation rule
(`GetDeviceStatus`; not among the provided sources; §4.2): with exactly
one accepted auth set the device is accepted and takes that auth set's
public key; with two or more the engine surfaces
`MultipleAcceptedAuthSets` rather than picking one; with none, the
device is pending when any auth set is pending, else rejected (also for
zero auth sets). -/
def deriveDeviceState (asets : List AuthSet) :
    Except StatusErr (Status × Option String) :=
  match asets.filter (fun a => decide (a.Status = .accepted)) with
  | [] =>
    if asets.any (fun a => decide (a.Status = .pending)) then .ok (.pending, none)
    else .ok (.rejected, none)
  | [a] => .ok (.accepted, some a.PubKey)
  | _ :: _ :: _ => .error .multipleAcceptedAuthSets

/-- Modelled from the spec: the status component of the derivation rule
(§4.2). -/
def deriveStatus (asets : List AuthSet) : Except StatusErr Status :=
  (deriveDeviceState asets).map Prod.fst

/-- Modelled from the spec: the public-key component of the derivation
rule (§4.2): the single accepted auth set's key, if any. -/
def acceptedPubKey (asets : List AuthSet) : Except StatusErr (Option String) :=
  (deriveDeviceState asets).map Prod.snd

/-- Modelled from the spec: the 1.5.0 backfill of one device row (§4.4):
recompute `IdDataStruct`/`IdDataSha256` from the raw `IdData` via the
canonicalizer, recompute `Status` by the derivation rule over the
device's auth sets, touch `UpdatedTs` only when a derived field actually
changed; a malformed payload or a surfaced consistency violation aborts
(§7: derivation errors propagate and abort the batch). -/
def migrateDevice (now : Int) (allAsets : List AuthSet) (d : Device) :
    Option Device :=
  match canonicalize d.IdData with
  | none => none
  | some st =>
    match deriveStatus (allAsets.filter (fun a => a.DeviceId = d.Id)) with
    | .error _ => none
    | .ok newStatus =>
      let h := sha256OfString d.IdData
      let changed := ¬(d.IdDataStruct = st ∧ d.IdDataSha256 = h ∧ d.Status = newStatus)
      some { d with
              IdDataStruct := st
              IdDataSha256 := h
              Status := newStatus
              UpdatedTs := if changed then now else d.UpdatedTs }

/-- Modelled from the spec: the 1.5.0 backfill of one auth-set row
(§4.4): recompute `IdDataStruct`/`IdDataSha256` from the raw `IdData`,
touch `Timestamp` only when a derived field actually changed. -/
def migrateAuthSet (now : Int) (a : AuthSet) : Option AuthSet :=
  match canonicalize a.IdData with
  | none => none
  | some st =>
    let h := sha256OfString a.IdData
    let changed := ¬(a.IdDataStruct = st ∧ a.IdDataSha256 = h)
    some { a with
            IdDataStruct := st
            IdDataSha256 := h
            Timestamp := if changed then now else a.Timestamp }

/-- Map a fallible transform over a list, aborting on the first failure
(the migration batch aborts as a whole). -/
def mapOption (f : α → Option β) : List α → Option (List β)
  | [] => some []
  | a :: as =>
    match f a, mapOption f as with
    | some b, some bs => some (b :: bs)
    | _, _ => none

/-- Modelled from the spec: `migration_1_5_0.Up` (§4.4): backfill every
device and every auth set; any canonicalization failure aborts the whole
step. -/
def migration_1_5_0 (now : Int) (devs : List Device) (asets : List AuthSet) :
    Option (List Device × List AuthSet) :=
  match mapOption (migrateDevice now asets) devs, mapOption (migrateAuthSet now) asets with
  | some devs', some asets' => some (devs', asets')
  | _, _ => none

/-! #### The migration test's fixtures (TestMigration_1_5_0) -/

/-- The test's PEM public key string. -/
def testPubKey : String :=
  "-----BEGIN PUBLIC KEY-----\nMIIBIjANBgkqhkiG9w0BAQEFAAOCAQ8AMIIBCgKCAQEAzogVU7RGDilbsoUt/DdH\nVJvcepl0A5+xzGQ50cq1VE/Dyyy8Zp0jzRXCnnu9nu395mAFSZGotZVr+sWEpO3c\nyC3VmXdBZmXmQdZqbdD/GuixJOYfqta2ytbIUPRXFN7/I7sgzxnXWBYXYmObYvdP\nokP0mQanY+WKxp7Q16pt1RoqoAd0kmV39g13rFl35muSHbSBoAW3GBF3gO+mF5Ty\n1ddp/XcgLOsmvNNjY+2HOD5F/RX0fs07mWnbD7x+xz7KEKjF+H7ZpkqCwmwCXaf0\niyYyh1852rti3Afw4mDxuVSD7sd9ggvYMc0QHIpQNkD4YWOhNiE1AB0zH57VbUYG\nUwIDAQAB\n-----END PUBLIC KEY-----"

/-- The test's insertion timestamp `ts`. -/
def testTs : Int := 1500000000

/-- The three device rows the test inserts (identity-derived fields are
still at their zero values). -/
def testDevs : List Device :=
  [{ Id := "1"
     IdData := "\x7b\"sn\":\"0001\",\"mac\":\"00:00:00:01\"\x7d"
     IdDataStruct := []
     IdDataSha256 := []
     PubKey := testPubKey
     Status := .accepted
     Decommissioning := false
     CreatedTs := testTs
     UpdatedTs := testTs },
   { Id := "2"
     IdData := "\x7b\"sn\":\"0002\",\"attr\":\"foo1\",\"mac\":\"00:00:00:02\"\x7d"
     IdDataStruct := []
     IdDataSha256 := []
     PubKey := testPubKey
     Status := .pending
     Decommissioning := false
     CreatedTs := testTs
     UpdatedTs := testTs },
   { Id := "3"
     IdData := "\x7b\"sn\":\"0003\",\"attr\":\"foo3\",\"mac\":\"00:00:00:03\"\x7d"
     IdDataStruct := []
     IdDataSha256 := []
     PubKey := testPubKey
     Status := .rejected
     Decommissioning := false
     CreatedTs := testTs
     UpdatedTs := testTs }]

/-- The four auth-set rows the test inserts: device 1 has one accepted
set, device 2 one rejected and one pending set, device 3 one rejected
set. -/
def testAsets : List AuthSet :=
  [{ Id := "1"
     DeviceId := "1"
     IdData := "\x7b\"sn\":\"0001\",\"mac\":\"00:00:00:01\"\x7d"
     IdDataStruct := []
     IdDataSha256 := []
     PubKey := testPubKey
     Status := .accepted
     Timestamp := testTs },
   { Id := "2"
     DeviceId := "2"
     IdData := "\x7b\"sn\":\"0002\",\"attr\":\"foo\",\"mac\":\"00:00:00:02\"\x7d"
     IdDataStruct := []
     IdDataSha256 := []
     PubKey := testPubKey
     Status := .rejected
     Timestamp := testTs },
   { Id := "3"
     DeviceId := "2"
     IdData := "\x7b\"sn\":\"0002\",\"attr\":\"foo1\",\"mac\":\"00:00:00:02\"\x7d"
     IdDataStruct := []
     IdDataSha256 := []
     PubKey := testPubKey
     Status := .pending
     Timestamp := testTs },
   { Id := "4"
     DeviceId := "3"
     IdData := "\x7b\"sn\":\"0003\",\"attr\":\"foo3\",\"mac\":\"00:00:00:03\"\x7d"
     IdDataStruct := []
     IdDataSha256 := []
     PubKey := testPubKey
     Status := .rejected
     Timestamp := testTs }]

/-- The time at which the migration runs in the scenario. -/
def migNow : Int := 1600000000

/-- Digest of device 1's (and auth set 1's) identity data; matches the
external SHA-256 of the raw string. -/
def hashDev1 : List Nat :=
  [250, 80, 97, 157, 168, 43, 214, 97, 180, 210, 14, 37, 143, 159, 190, 122,
   34, 74, 141, 233, 48, 147, 202, 73, 132, 247, 152, 64, 172, 202, 117, 233]

/-- Digest of device 2's (and auth set 3's) identity data. -/
def hashDev2 : List Nat :=
  [154, 236, 112, 4, 157, 100, 100, 16, 190, 77, 137, 143, 133, 166, 66, 135,
   133, 95, 178, 204, 118, 63, 135, 184, 186, 2, 195, 165, 215, 157, 35, 244]

/-- Digest of device 3's (and auth set 4's) identity data. -/
def hashDev3 : List Nat :=
  [9, 4, 65, 30, 216, 37, 237, 75, 136, 96, 195, 140, 45, 208, 234, 199,
   179, 66, 140, 14, 171, 126, 71, 165, 166, 210, 150, 219, 215, 73, 159, 86]

/-- Digest of auth set 2's identity data. -/
def hashAset2 : List Nat :=
  [160, 6, 234, 58, 152, 69, 167, 6, 236, 211, 179, 21, 190, 213, 72, 159,
   177, 28, 31, 223, 195, 12, 138, 200, 189, 88, 217, 167, 208, 179, 109, 207]

/-- The device rows expected after the 1.5.0 backfill. -/
def expectedDevs : List Device :=
  [{ Id := "1"
     IdData := "\x7b\"sn\":\"0001\",\"mac\":\"00:00:00:01\"\x7d"
     IdDataStruct := [("mac", "00:00:00:01"), ("sn", "0001")]
     IdDataSha256 := hashDev1
     PubKey := testPubKey
     Status := .accepted
     Decommissioning := false
     CreatedTs := testTs
     UpdatedTs := migNow },
   { Id := "2"
     IdData := "\x7b\"sn\":\"0002\",\"attr\":\"foo1\",\"mac\":\"00:00:00:02\"\x7d"
     IdDataStruct := [("attr", "foo1"), ("mac", "00:00:00:02"), ("sn", "0002")]
     IdDataSha256 := hashDev2
     PubKey := testPubKey
     Status := .pending
     Decommissioning := false
     CreatedTs := testTs
     UpdatedTs := migNow },
   { Id := "3"
     IdData := "\x7b\"sn\":\"0003\",\"attr\":\"foo3\",\"mac\":\"00:00:00:03\"\x7d"
     IdDataStruct := [("attr", "foo3"), ("mac", "00:00:00:03"), ("sn", "0003")]
     IdDataSha256 := hashDev3
     PubKey := testPubKey
     Status := .rejected
     Decommissioning := false
     CreatedTs := testTs
     UpdatedTs := migNow }]

/-- The auth-set rows expected after the 1.5.0 backfill. -/
def expectedAsets : List AuthSet :=
  [{ Id := "1"
     DeviceId := "1"
     IdData := "\x7b\"sn\":\"0001\",\"mac\":\"00:00:00:01\"\x7d"
     IdDataStruct := [("mac", "00:00:00:01"), ("sn", "0001")]
     IdDataSha256 := hashDev1
     PubKey := testPubKey
     Status := .accepted
     Timestamp := migNow },
   { Id := "2"
     DeviceId := "2"
     IdData := "\x7b\"sn\":\"0002\",\"attr\":\"foo\",\"mac\":\"00:00:00:02\"\x7d"
     IdDataStruct := [("attr", "foo"), ("mac", "00:00:00:02"), ("sn", "0002")]
     IdDataSha256 := hashAset2
     PubKey := testPubKey
     Status := .rejected
     Timestamp := migNow },
   { Id := "3"
     DeviceId := "2"
     IdData := "\x7b\"sn\":\"0002\",\"attr\":\"foo1\",\"mac\":\"00:00:00:02\"\x7d"
     IdDataStruct := [("attr", "foo1"), ("mac", "00:00:00:02"), ("sn", "0002")]
     IdDataSha256 := hashDev2
     PubKey := testPubKey
     Status := .pending
     Timestamp := migNow },
   { Id := "4"
     DeviceId := "3"
     IdData := "\x7b\"sn\":\"0003\",\"attr\":\"foo3\",\"mac\":\"00:00:00:03\"\x7d"
     IdDataStruct := [("attr", "foo3"), ("mac", "00:00:00:03"), ("sn", "0003")]
     IdDataSha256 := hashDev3
     PubKey := testPubKey
     Status := .rejected
     Timestamp := migNow }]

set_option maxRecDepth 100000
set_option maxHeartbeats 1000000

/-- C5.  Migration end-to-end scenario: running the 1.5.0 backfill over
the test's three devices — (one accepted auth set), (one rejected and
one pending auth set), (one rejected auth set) — succeeds and persists
exactly the expected rows: device statuses accepted, pending and
rejected respectively, and every persisted device's and auth set's
`IdDataSha256` is the SHA-256 of its exact raw `IdData` string while its
`IdDataStruct` is the canonical decoding of that `IdData`. -/
theorem migration_1_5_0_scenario :
    migration_1_5_0 migNow testDevs testAsets = some (expectedDevs, expectedAsets) ∧
    expectedDevs.map (fun d => d.Status) = [.accepted, .pending, .rejected] ∧
    (expectedDevs.all fun d =>
      decide (d.IdDataSha256 = sha256OfString d.IdData) &&
      decide (canonicalize d.IdData = some d.IdDataStruct)) = true ∧
    (expectedAsets.all fun a =>
      decide (a.IdDataSha256 = sha256OfString a.IdData) &&
      decide (canonicalize a.IdData = some a.IdDataStruct)) = true := by
  refine ⟨by decide, by decide, by decide, by decide⟩

/-- An accepted auth set for the multi-accepted counterexample. -/
def witAsetAccepted1 : AuthSet :=
  { Id := "a1", DeviceId := "d", IdData := "\x7b\"a\":\"b\"\x7d",
    IdDataStruct := [], IdDataSha256 := [], PubKey := "k1",
    Status := .accepted, Timestamp := 0 }

/-- A second accepted auth set for the multi-accepted counterexample. -/
def witAsetAccepted2 : AuthSet :=
  { Id := "a2", DeviceId := "d", IdData := "\x7b\"a\":\"b\"\x7d",
    IdDataStruct := [], IdDataSha256 := [], PubKey := "k2",
    Status := .accepted, Timestamp := 0 }

/-- C6 counterexample: a device with two accepted auth sets.  Both have
status accepted, yet the spec-modelled engine does not derive status
accepted as the claim asserts for "any auth set accepted" — it surfaces
the `MultipleAcceptedAuthSets` consistency violation (§4.2/§7) instead
of silently picking one. -/
theorem two_accepted_not_accepted :
    witAsetAccepted1.Status = .accepted ∧ witAsetAccepted2.Status = .accepted ∧
    deriveStatus [witAsetAccepted1, witAsetAccepted2] ≠ .ok .accepted ∧
    deriveDeviceState [witAsetAccepted1, witAsetAccepted2] =
      .error .multipleAcceptedAuthSets := by
  refine ⟨by decide, by decide, by decide, by decide⟩

/-- C6 (amended).  Status derivation rule: with exactly one accepted
auth set the derived device state is accepted with that auth set's
public key; with two or more accepted auth sets the engine surfaces the
`MultipleAcceptedAuthSets` violation instead of silently picking one;
with none, the status is pending when any auth set is pending, else
rejected — including for zero auth sets; and in particular one rejected
plus one pending auth set derive pending. -/
theorem deriveStatus_rule (asets : List AuthSet) :
    (∀ a : AuthSet, asets.filter (fun x => decide (x.Status = .accepted)) = [a] →
        a ∈ asets ∧ a.Status = .accepted ∧
        deriveDeviceState asets = .ok (.accepted, some a.PubKey)) ∧
    (2 ≤ (asets.filter (fun x => decide (x.Status = .accepted))).length →
        deriveDeviceState asets = .error .multipleAcceptedAuthSets) ∧
    ((¬ ∃ a ∈ asets, a.Status = .accepted) → (∃ a ∈ asets, a.Status = .pending) →
        deriveDeviceState asets = .ok (.pending, none)) ∧
    ((¬ ∃ a ∈ asets, a.Status = .accepted) → (¬ ∃ a ∈ asets, a.Status = .pending) →
        deriveDeviceState asets = .ok (.rejected, none)) ∧
    deriveDeviceState [] = .ok (.rejected, none) ∧
    (∀ a b : AuthSet, a.Status = .rejected → b.Status = .pending →
        deriveDeviceState [a, b] = .ok (.pending, none)) := by
  refine ⟨?_, ?_, ?_, ?_, by decide, ?_⟩
  · intro a hf
    have hmem : a ∈ asets.filter (fun x => decide (x.Status = .accepted)) := by
      rw [hf]; exact List.mem_singleton.mpr rfl
    refine ⟨List.mem_of_mem_filter hmem, ?_, ?_⟩
    · simpa using List.of_mem_filter hmem
    · simp [deriveDeviceState, hf]
  · intro h2
    rcases hf : asets.filter (fun x => decide (x.Status = .accepted)) with
      _ | ⟨x, _ | ⟨y, rest⟩⟩
    · rw [hf] at h2; simp at h2
    · rw [hf] at h2; simp at h2
    · simp [deriveDeviceState, hf]
  · intro hna hp
    have hf : asets.filter (fun x => decide (x.Status = .accepted)) = [] := by
      refine List.filter_eq_nil_iff.mpr ?_
      intro a ha
      simp only [decide_eq_true_eq]
      exact fun hc => hna ⟨a, ha, hc⟩
    have hanyP : asets.any (fun a => decide (a.Status = .pending)) = true := by
      simp only [List.any_eq_true, decide_eq_true_eq]
      exact hp
    simp [deriveDeviceState, hf, hanyP]
  · intro hna hnp
    have hf : asets.filter (fun x => decide (x.Status = .accepted)) = [] := by
      refine List.filter_eq_nil_iff.mpr ?_
      intro a ha
      simp only [decide_eq_true_eq]
      exact fun hc => hna ⟨a, ha, hc⟩
    have hanyP : asets.any (fun a => decide (a.Status = .pending)) = false := by
      simp only [List.any_eq_false, decide_eq_true_eq]
      exact fun a ha hc => hnp ⟨a, ha, hc⟩
    simp [deriveDeviceState, hf, hanyP]
  · intro a b ha hb
    simp [deriveDeviceState, ha, hb]

/-- A rejected auth set for the derivation-rule witness. -/
def witAsetRejected : AuthSet :=
  { Id := "r", DeviceId := "d", IdData := "\x7b\"a\":\"b\"\x7d",
    IdDataStruct := [], IdDataSha256 := [], PubKey := "kr",
    Status := .rejected, Timestamp := 0 }

/-- A pending auth set for the derivation-rule witness. -/
def witAsetPending : AuthSet :=
  { Id := "p", DeviceId := "d", IdData := "\x7b\"a\":\"b\"\x7d",
    IdDataStruct := [], IdDataSha256 := [], PubKey := "kp",
    Status := .pending, Timestamp := 0 }

theorem deriveStatus_rule_witness :
    deriveDeviceState [witAsetRejected, witAsetPending] = .ok (.pending, none) ∧
    deriveDeviceState [] = .ok (.rejected, none) :=
  ⟨(deriveStatus_rule [witAsetRejected, witAsetPending]).2.2.2.2.2
      witAsetRejected witAsetPending rfl rfl,
   (deriveStatus_rule []).2.2.2.2.1⟩

/-- A successful `mapOption` relates input and output elementwise. -/
theorem mapOption_forall2 {α β : Type} {f : α → Option β} :
    ∀ {l : List α} {l' : List β}, mapOption f l = some l' →
      List.Forall₂ (fun a b => f a = some b) l l' := by
  intro l
  induction l with
  | nil =>
    intro l' h
    simp only [mapOption, Option.some.injEq] at h
    subst h
    exact List.Forall₂.nil
  | cons a as ih =>
    intro l' h
    simp only [mapOption] at h
    cases hfa : f a with
    | none => rw [hfa] at h; simp at h
    | some b =>
      cases hrest : mapOption f as with
      | none => rw [hfa, hrest] at h; simp at h
      | some bs =>
        rw [hfa, hrest] at h
        simp only [Option.some.injEq] at h
        subst h
        exact List.Forall₂.cons hfa (ih hrest)

/-- Backfilling a device row preserves its raw source fields. -/
theorem migrateDevice_frame {now : Int} {asets : List AuthSet} {d d' : Device}
    (h : migrateDevice now asets d = some d') :
    d'.Id = d.Id ∧ d'.IdData = d.IdData ∧ d'.PubKey = d.PubKey ∧
    d'.Decommissioning = d.Decommissioning ∧ d'.CreatedTs = d.CreatedTs := by
  unfold migrateDevice at h
  cases hc : canonicalize d.IdData with
  | none => rw [hc] at h; simp at h
  | some st =>
    rw [hc] at h
    cases hds : deriveStatus (asets.filter (fun a => a.DeviceId = d.Id)) with
    | error e => rw [hds] at h; simp at h
    | ok newStatus =>
      rw [hds] at h
      simp only [Option.some.injEq] at h
      subst h
      simp

/-- Backfilling an auth-set row preserves its raw source fields,
including its decision status. -/
theorem migrateAuthSet_frame {now : Int} {a a' : AuthSet}
    (h : migrateAuthSet now a = some a') :
    a'.Id = a.Id ∧ a'.DeviceId = a.DeviceId ∧ a'.IdData = a.IdData ∧
    a'.PubKey = a.PubKey ∧ a'.Status = a.Status := by
  unfold migrateAuthSet at h
  cases hc : canonicalize a.IdData with
  | none => rw [hc] at h; simp at h
  | some st =>
    rw [hc] at h
    simp only [Option.some.injEq] at h
    subst h
    simp

/-- C9.  Backfill frame condition: a successful 1.5.0 migration changes
only the derived fields of the persisted rows; elementwise, every
device row keeps its id, raw identity data, public key, decommissioning
flag and creation time, and every auth-set row keeps its id, device id,
raw identity data, public key and status. -/
theorem migration_1_5_0_frame (now : Int) (devs : List Device)
    (asets : List AuthSet) (devs' : List Device) (asets' : List AuthSet)
    (h : migration_1_5_0 now devs asets = some (devs', asets')) :
    List.Forall₂ (fun d d' : Device =>
      d'.Id = d.Id ∧ d'.IdData = d.IdData ∧ d'.PubKey = d.PubKey ∧
      d'.Decommissioning = d.Decommissioning ∧ d'.CreatedTs = d.CreatedTs)
      devs devs' ∧
    List.Forall₂ (fun a a' : AuthSet =>
      a'.Id = a.Id ∧ a'.DeviceId = a.DeviceId ∧ a'.IdData = a.IdData ∧
      a'.PubKey = a.PubKey ∧ a'.Status = a.Status) asets asets' := by
  unfold migration_1_5_0 at h
  cases hd : mapOption (migrateDevice now asets) devs with
  | none => rw [hd] at h; simp at h
  | some ds =>
    cases ha : mapOption (migrateAuthSet now) asets with
    | none => rw [hd, ha] at h; simp at h
    | some as2 =>
      rw [hd, ha] at h
      simp only [Option.some.injEq, Prod.mk.injEq] at h
      obtain ⟨h1, h2⟩ := h
      subst h1
      subst h2
      constructor
      · exact (mapOption_forall2 hd).imp (fun d d' hdd => migrateDevice_frame hdd)
      · exact (mapOption_forall2 ha).imp (fun a a' haa => migrateAuthSet_frame haa)

/-- A one-device dataset for the frame-condition witness. -/
def witDev : Device :=
  { Id := "d", IdData := "\x7b\"a\":\"b\"\x7d", IdDataStruct := [],
    IdDataSha256 := [], PubKey := "k", Status := .rejected,
    Decommissioning := false, CreatedTs := 3, UpdatedTs := 3 }

/-- The digest of the witness payload; matches the external SHA-256. -/
def witHash : List Nat :=
  [219, 74, 126, 203, 17, 75, 198, 108, 98, 58, 6, 196, 255, 111, 232, 218,
   162, 244, 156, 194, 112, 235, 191, 122, 31, 129, 226, 42, 176, 97, 200, 55]

/-- The device row after migrating the witness dataset. -/
def witDevAfter : Device :=
  { Id := "d", IdData := "\x7b\"a\":\"b\"\x7d", IdDataStruct := [("a", "b")],
    IdDataSha256 := witHash, PubKey := "k", Status := .pending,
    Decommissioning := false, CreatedTs := 3, UpdatedTs := 7 }

/-- The auth-set row after migrating the witness dataset. -/
def witAsetAfter : AuthSet :=
  { Id := "p", DeviceId := "d", IdData := "\x7b\"a\":\"b\"\x7d",
    IdDataStruct := [("a", "b")], IdDataSha256 := witHash, PubKey := "kp",
    Status := .pending, Timestamp := 7 }

theorem migration_1_5_0_frame_witness :
    List.Forall₂ (fun d d' : Device =>
      d'.Id = d.Id ∧ d'.IdData = d.IdData ∧ d'.PubKey = d.PubKey ∧
      d'.Decommissioning = d.Decommissioning ∧ d'.CreatedTs = d.CreatedTs)
      [witDev] [witDevAfter] ∧
    List.Forall₂ (fun a a' : AuthSet =>
      a'.Id = a.Id ∧ a'.DeviceId = a.DeviceId ∧ a'.IdData = a.IdData ∧
      a'.PubKey = a.PubKey ∧ a'.Status = a.Status)
      [witAsetPending] [witAsetAfter] :=
  migration_1_5_0_frame 7 [witDev] [witAsetPending] [witDevAfter] [witAsetAfter]
    (by decide)

/-! ### Theorems about the JWT agent -/

/-- A UUID v4 string always has 36 characters. -/
theorem uuidV4Chars_length (r : Nat → Nat) : (uuidV4Chars r).length = 36 := by
  simp [uuidV4Chars, hexByte]

/-- A generated token id is never empty (so `omitempty` never drops the
jti claim of a generated token). -/
theorem generateTokenId_ne_empty (r : Nat → Nat) : generateTokenId r ≠ "" := by
  intro h
  have h2 : uuidV4Chars r = [] := congrArg String.data h
  have h3 := uuidV4Chars_length r
  rw [h2] at h3
  simp at h3

/-- C10.  Whenever validation fails — for any reason — the returned
token identifier is exactly the empty string; contrapositively a
non-empty returned jti implies the error is nil. -/
theorem validate_fail_returns_empty (j : JWTAgent) (now : Int) (ts : TokenString) :
    (ValidateTokenSignRS256 j now ts).2 = none ∨
    (ValidateTokenSignRS256 j now ts).1 = "" := by
  rcases hp : jwtParse j.privKey.publicKey now ts with cs | e
  · rcases hj : lookupClaim "jti" cs with _ | v
    · right; simp [ValidateTokenSignRS256, hp, hj]
    · cases v with
      | str s => left; simp [ValidateTokenSignRS256, hp, hj]
      | num n => right; simp [ValidateTokenSignRS256, hp, hj]
      | bool b => right; simp [ValidateTokenSignRS256, hp, hj]
      | null => right; simp [ValidateTokenSignRS256, hp, hj]
  · right
    simp only [ValidateTokenSignRS256, hp]
    split <;> rfl

/-- C2.  Algorithm-substitution rejection: any token whose header
algorithm is not of the RSA signing-method type fails validation with
the wrapped "Unexpected signing method" error (and an empty jti), no
matter what its claims are and no matter what signature it carries —
in particular even one correctly signed under a key the verifier does
not control. -/
theorem validate_rejects_non_rsa (j : JWTAgent) (now : Int) (alg : Alg)
    (cs : List (String × JSONValue)) (sig : Signature)
    (h : alg.isRSAMethod = false) :
    ValidateTokenSignRS256 j now (.token alg cs sig) =
      ("", some (.tokenInvalid
        ⟨some (.unexpectedSigningMethod alg.algName), ValidationErrorUnverifiable⟩)) := by
  simp [ValidateTokenSignRS256, jwtParse, h, ValidationErrorUnverifiable,
    ValidationErrorExpired]
  decide

/-- The verifying agent used by the concrete token witnesses. -/
def witAgent : JWTAgent := { privKey := ⟨0⟩, issuer := "mender", expTimeout := 3600 }

theorem validate_rejects_non_rsa_witness :
    ValidateTokenSignRS256 witAgent 1000
        (.token .HS256 [("jti", .str "x")] ⟨1, (.HS256, [("jti", .str "x")])⟩) =
      ("", some (.tokenInvalid
        ⟨some (.unexpectedSigningMethod "HS256"), ValidationErrorUnverifiable⟩)) :=
  validate_rejects_non_rsa witAgent 1000 .HS256 [("jti", .str "x")]
    ⟨1, (.HS256, [("jti", .str "x")])⟩ rfl

/-- C3 counterexample: a token whose claims mark it expired (a nonzero
`exp = 50` at validation time 100) but whose header algorithm is HS256
does NOT fail with the TokenExpired error — the key function rejects it
first, so validation fails with the generic wrapped error instead. -/
theorem expired_non_rsa_not_tokenExpired :
    expOk 100 [("exp", JSONValue.num 50)] = false ∧
    (ValidateTokenSignRS256 witAgent 100
        (.token .HS256 [("exp", .num 50)] ⟨1, (.HS256, [("exp", .num 50)])⟩)).2 ≠
      some JWTError.tokenExpired ∧
    (ValidateTokenSignRS256 witAgent 100
        (.token .HS256 [("exp", .num 50)] ⟨1, (.HS256, [("exp", .num 50)])⟩)).2 =
      some (.tokenInvalid
        ⟨some (.unexpectedSigningMethod "HS256"), ValidationErrorUnverifiable⟩) := by
  refine ⟨by decide, by decide, by decide⟩

/-- For an RSA-family token whose claims are marked expired, parsing
yields a `ValidationError` with the expired flag set (whatever the iat,
nbf and signature outcomes add to it). -/
theorem jwtParse_expired (pub : RSAPublicKey) (now : Int) (alg : Alg)
    (cs : List (String × JSONValue)) (sig : Signature)
    (ha : alg.isRSAMethod = true) (he : expOk now cs = false) :
    ∃ e, jwtParse pub now (.token alg cs sig) = .error e ∧
      e.errors &&& ValidationErrorExpired ≠ 0 := by
  cases hi : iatOk now cs <;> cases hn : nbfOk now cs <;>
    cases hs : sigVerify pub alg cs sig <;>
      simp [jwtParse, claimsValid, ha, he, hi, hn, hs, ValidationErrorExpired,
        ValidationErrorIssuedAt, ValidationErrorNotValidYet,
        ValidationErrorSignatureInvalid]

/-- C3 (amended).  Expiry is a distinct failure for the tokens the
verifier accepts the method of: every token with an RSA-family header
algorithm whose claims mark it expired at validation time fails with
TokenExpired (never the generic invalid errors), whatever its signature;
in particular a token generated with a negative expiration timeout
(whose encoded expiry claim is then a nonzero past instant) immediately
validates to TokenExpired. -/
theorem validate_expired_rsa (j : JWTAgent) (now : Int) :
    (∀ (alg : Alg) (cs : List (String × JSONValue)) (sig : Signature),
      alg.isRSAMethod = true → expOk now cs = false →
      ValidateTokenSignRS256 j now (.token alg cs sig) = ("", some .tokenExpired)) ∧
    (j.expTimeout < 0 → now + j.expTimeout ≠ 0 → ∀ (devId : String) (rnd : Nat → Nat),
      ValidateTokenSignRS256 j now (GenerateTokenSignRS256 j devId now rnd).issuedString =
        ("", some .tokenExpired)) := by
  have main : ∀ (alg : Alg) (cs : List (String × JSONValue)) (sig : Signature),
      alg.isRSAMethod = true → expOk now cs = false →
      ValidateTokenSignRS256 j now (.token alg cs sig) = ("", some .tokenExpired) := by
    intro alg cs sig ha he
    obtain ⟨e, hp, hbit⟩ := jwtParse_expired j.privKey.publicKey now alg cs sig ha he
    simp [ValidateTokenSignRS256, hp, hbit]
  refine ⟨main, ?_⟩
  intro hneg hnz devId rnd
  refine main .RS256 _ _ rfl ?_
  have hid : generateTokenId rnd ≠ "" := generateTokenId_ne_empty rnd
  simp only [GenerateTokenSignRS256, StandardClaims.encode, NewToken, signedString]
  rw [if_neg hnz, if_neg hid]
  simp [expOk, lookupClaim, hnz]
  omega

/-- An agent configured with `expirationTimeout = -1` for the expiry
witness. -/
def witAgentNeg : JWTAgent := { privKey := ⟨0⟩, issuer := "mender", expTimeout := -1 }

theorem validate_expired_rsa_witness :
    ValidateTokenSignRS256 witAgentNeg 100
        (GenerateTokenSignRS256 witAgentNeg "dev" 100 (fun _ => 0)).issuedString =
      ("", some .tokenExpired) :=
  (validate_expired_rsa witAgentNeg 100).2 (by decide) (by decide) "dev" (fun _ => 0)

/-- C1.  Round-trip of issuance and validation: a token issued by the
agent (with a non-negative configured timeout) and immediately validated
comes back with no error and exactly the jti it was issued with. -/
theorem generate_validate_roundtrip (j : JWTAgent) (devId : String) (now : Int)
    (rnd : Nat → Nat) (h : 0 ≤ j.expTimeout) :
    ValidateTokenSignRS256 j now (GenerateTokenSignRS256 j devId now rnd).issuedString =
      ((GenerateTokenSignRS256 j devId now rnd).id, none) := by
  have hid : generateTokenId rnd ≠ "" := generateTokenId_ne_empty rnd
  have hle : now ≤ now + j.expTimeout := by omega
  simp only [GenerateTokenSignRS256, StandardClaims.encode, NewToken, signedString]
  by_cases hexp : now + j.expTimeout = 0 <;>
    by_cases hiss : j.issuer = "" <;>
      by_cases hsub : devId = "" <;>
        simp [hexp, hiss, hsub, hid, hle, ValidateTokenSignRS256, jwtParse,
          claimsValid, expOk, iatOk, nbfOk, sigVerify, lookupClaim, Alg.isRSAMethod,
          RSAPrivateKey.publicKey]

theorem generate_validate_roundtrip_witness :
    0 ≤ witAgent.expTimeout ∧
    ValidateTokenSignRS256 witAgent 1000
        (GenerateTokenSignRS256 witAgent "dev-1" 1000 (fun _ => 0)).issuedString =
      ((GenerateTokenSignRS256 witAgent "dev-1" 1000 (fun _ => 0)).id, none) :=
  ⟨by decide,
   generate_validate_roundtrip witAgent "dev-1" 1000 (fun _ => 0) (by decide)⟩

/-- C4.  Token issuance content: a generated token is exactly the
freshly generated UUID-v4 jti, the device id as subject, and the RS256
signature by the agent's private key over the standard claims (issuer =
the configured issuer, subject = the device id, expiry = now plus the
configured timeout, id = that jti); the encoded claim set carries the
jti (always) and the expiry (whenever it is nonzero, `omitempty`); and
the jti has UUID v4 shape: 36 characters in five dash-separated groups
of 8, 4, 4, 4 and 12 hex digits, with version digit 4 opening the third
group and an RFC 4122 variant digit (8, 9, a or b) opening the
fourth. -/
theorem generate_token_content (j : JWTAgent) (devId : String) (now : Int)
    (rnd : Nat → Nat) :
    GenerateTokenSignRS256 j devId now rnd =
      NewToken (generateTokenId rnd) devId
        (signedString .RS256
          (StandardClaims.encode
            { Issuer := j.issuer, ExpiresAt := now + j.expTimeout,
              Subject := devId, Id := generateTokenId rnd }) j.privKey) ∧
    lookupClaim "jti"
        (StandardClaims.encode
          { Issuer := j.issuer, ExpiresAt := now + j.expTimeout,
            Subject := devId, Id := generateTokenId rnd }) =
      some (.str (generateTokenId rnd)) ∧
    (now + j.expTimeout ≠ 0 →
      lookupClaim "exp"
          (StandardClaims.encode
            { Issuer := j.issuer, ExpiresAt := now + j.expTimeout,
              Subject := devId, Id := generateTokenId rnd }) =
        some (.num (now + j.expTimeout))) ∧
    (generateTokenId rnd).length = 36 ∧
    (∃ q1 q2 q3 q4 q5 : List Char, ∃ v : Char,
      (generateTokenId rnd).data =
        q1 ++ '-' :: q2 ++ '-' :: '4' :: q3 ++ '-' :: v :: q4 ++ '-' :: q5 ∧
      q1.length = 8 ∧ q2.length = 4 ∧ q3.length = 3 ∧ q4.length = 3 ∧
      q5.length = 12 ∧ (v = '8' ∨ v = '9' ∨ v = 'a' ∨ v = 'b')) := by
  have hid : generateTokenId rnd ≠ "" := generateTokenId_ne_empty rnd
  refine ⟨rfl, ?_, ?_, ?_, ?_⟩
  · by_cases hexp : now + j.expTimeout = 0 <;>
      simp [StandardClaims.encode, lookupClaim, hexp, hid]
  · intro hexp
    simp [StandardClaims.encode, lookupClaim, hexp, hid]
  · show (uuidV4Chars rnd).length = 36
    exact uuidV4Chars_length rnd
  · have h4 : hexDigit ((rnd 6 % 16 + 64) / 16 % 16) = '4' := by
      have h : (rnd 6 % 16 + 64) / 16 % 16 = 4 := by omega
      rw [h]; decide
    refine ⟨hexByte (rnd 0) ++ hexByte (rnd 1) ++ hexByte (rnd 2) ++ hexByte (rnd 3),
      hexByte (rnd 4) ++ hexByte (rnd 5),
      hexDigit ((rnd 6 % 16 + 64) % 16) :: hexByte (rnd 7),
      hexDigit ((rnd 8 % 64 + 128) % 16) :: hexByte (rnd 9),
      hexByte (rnd 10) ++ hexByte (rnd 11) ++ hexByte (rnd 12) ++ hexByte (rnd 13) ++
        hexByte (rnd 14) ++ hexByte (rnd 15),
      hexDigit ((rnd 8 % 64 + 128) / 16 % 16), ?_, ?_, ?_, ?_, ?_, ?_, ?_⟩
    · show uuidV4Chars rnd = _
      simp only [uuidV4Chars, hexByte, h4]
      simp
    · simp [hexByte]
    · simp [hexByte]
    · simp [hexByte]
    · simp [hexByte]
    · simp [hexByte]
    · have hv : (rnd 8 % 64 + 128) / 16 % 16 = 8 ∨ (rnd 8 % 64 + 128) / 16 % 16 = 9 ∨
          (rnd 8 % 64 + 128) / 16 % 16 = 10 ∨ (rnd 8 % 64 + 128) / 16 % 16 = 11 := by
        omega
      rcases hv with h | h | h | h <;> rw [h] <;>
        first
          | exact Or.inl (by decide)
          | exact Or.inr (Or.inl (by decide))
          | exact Or.inr (Or.inr (Or.inl (by decide)))
          | exact Or.inr (Or.inr (Or.inr (by decide)))

theorem generate_token_content_witness :
    GenerateTokenSignRS256 witAgent "dev-1" 1000 (fun _ => 0) =
      NewToken (generateTokenId (fun _ => 0)) "dev-1"
        (signedString .RS256
          (StandardClaims.encode
            { Issuer := witAgent.issuer, ExpiresAt := 1000 + witAgent.expTimeout,
              Subject := "dev-1", Id := generateTokenId (fun _ => 0) })
          witAgent.privKey) ∧
    lookupClaim "exp"
        (StandardClaims.encode
          { Issuer := witAgent.issuer, ExpiresAt := 1000 + witAgent.expTimeout,
            Subject := "dev-1", Id := generateTokenId (fun _ => 0) }) =
      some (.num (1000 + witAgent.expTimeout)) :=
  ⟨(generate_token_content witAgent "dev-1" 1000 (fun _ => 0)).1,
   (generate_token_content witAgent "dev-1" 1000 (fun _ => 0)).2.2.1 (by decide)⟩

/-- Whether a validation failure is one of the generic "token invalid"
failures (the wrapped parse error or the missing-jti error), as opposed
to TokenExpired or success. -/
def isTokenInvalidErr : Option JWTError → Bool
  | some (.tokenInvalid _) => true
  | some .tokenInvalidClaims => true
  | _ => false

/-- C8.  Missing or malformed jti: for a token whose signature verifies
(hence whose header algorithm is RSA-family) and which is not expired,
if the jti claim is absent or its value is not a string, or the claim
set otherwise fails validation, validation fails with a TokenInvalid
failure and an empty jti. -/
theorem validate_bad_jti (j : JWTAgent) (now : Int) (alg : Alg)
    (cs : List (String × JSONValue)) (sig : Signature)
    (ha : alg.isRSAMethod = true)
    (hs : sigVerify j.privKey.publicKey alg cs sig = true)
    (hexp : expOk now cs = true)
    (hbad : (∀ s, lookupClaim "jti" cs ≠ some (.str s)) ∨
      (claimsValid now cs).errors ≠ 0) :
    (ValidateTokenSignRS256 j now (.token alg cs sig)).1 = "" ∧
    isTokenInvalidErr (ValidateTokenSignRS256 j now (.token alg cs sig)).2 = true := by
  by_cases hcv : (claimsValid now cs).errors = 0
  · have hparse : jwtParse j.privKey.publicKey now (.token alg cs sig) = .ok cs := by
      simp [jwtParse, ha, hs, hcv]
    rcases hbad with hj | hne
    · rcases hl : lookupClaim "jti" cs with _ | v
      · simp [ValidateTokenSignRS256, hparse, hl, isTokenInvalidErr]
      · cases v with
        | str s => exact absurd hl (hj s)
        | num n => simp [ValidateTokenSignRS256, hparse, hl, isTokenInvalidErr]
        | bool b => simp [ValidateTokenSignRS256, hparse, hl, isTokenInvalidErr]
        | null => simp [ValidateTokenSignRS256, hparse, hl, isTokenInvalidErr]
    · exact absurd hcv hne
  · have hbit : (claimsValid now cs).errors &&& ValidationErrorExpired = 0 := by
      cases hi : iatOk now cs <;> cases hn : nbfOk now cs <;>
        simp [claimsValid, hexp, hi, hn, ValidationErrorIssuedAt,
          ValidationErrorNotValidYet, ValidationErrorExpired] <;> decide
    have hparse : jwtParse j.privKey.publicKey now (.token alg cs sig) =
        .error (claimsValid now cs) := by
      simp [jwtParse, ha, hs, hcv]
    simp [ValidateTokenSignRS256, hparse, hbit, isTokenInvalidErr]

theorem validate_bad_jti_witness :
    (ValidateTokenSignRS256 witAgent 100
        (.token .RS256 [("exp", .num 0)]
          ⟨0, (.RS256, [("exp", .num 0)])⟩)).1 = "" ∧
    isTokenInvalidErr
        (ValidateTokenSignRS256 witAgent 100
          (.token .RS256 [("exp", .num 0)]
            ⟨0, (.RS256, [("exp", .num 0)])⟩)).2 = true :=
  validate_bad_jti witAgent 100 .RS256 [("exp", .num 0)]
    ⟨0, (.RS256, [("exp", .num 0)])⟩ rfl (by decide) (by decide)
    (Or.inl (by intro s; simp [lookupClaim]))

/-- C7.  Key-loading failure taxonomy: `getRSAPrivKey` fails with
`keyReadFailed` exactly when reading the file errors, with
`keyNotPEMEncoded` exactly when the contents do not PEM-decode, with a
type-mismatch error exactly when the PEM block's type is not
"RSA PRIVATE KEY", and otherwise returns whatever the PKCS#1 DER parser
produces on the block's bytes. -/
theorem getRSAPrivKey_taxonomy (readFile : String → Option FileContents)
    (parsePKCS1 : List Nat → Except String RSAPrivateKey) (path : String) :
    (getRSAPrivKey readFile parsePKCS1 path = .error .keyReadFailed ↔
      readFile path = none) ∧
    (getRSAPrivKey readFile parsePKCS1 path = .error .keyNotPEMEncoded ↔
      ∃ raw, readFile path = some (.notPEM raw)) ∧
    ((∃ t, getRSAPrivKey readFile parsePKCS1 path = .error (.keyTypeMismatch t)) ↔
      ∃ t b, readFile path = some (.pemBlock t b) ∧ t ≠ "RSA PRIVATE KEY") ∧
    (∀ b, readFile path = some (.pemBlock "RSA PRIVATE KEY" b) →
      getRSAPrivKey readFile parsePKCS1 path =
        match parsePKCS1 b with
        | .ok k => .ok k
        | .error m => .error (.parseFailed m)) := by
  rcases hrf : readFile path with _ | c
  · refine ⟨by simp [getRSAPrivKey, hrf], by simp [getRSAPrivKey, hrf],
      by simp [getRSAPrivKey, hrf], ?_⟩
    intro b hb
    exact absurd hb (by simp)
  · cases c with
    | notPEM raw =>
      refine ⟨by simp [getRSAPrivKey, pemDecode, hrf],
        by simp [getRSAPrivKey, pemDecode, hrf],
        by simp [getRSAPrivKey, pemDecode, hrf], ?_⟩
      intro b hb
      exact absurd hb (by simp)
    | pemBlock t bytes =>
      by_cases ht : t = "RSA PRIVATE KEY"
      · subst ht
        rcases hp : parsePKCS1 bytes with k | m
        · refine ⟨by simp [getRSAPrivKey, pemDecode, hrf, hp],
            by simp [getRSAPrivKey, pemDecode, hrf, hp],
            by simp [getRSAPrivKey, pemDecode, hrf, hp], ?_⟩
          intro b hb
          simp only [Option.some.injEq, FileContents.pemBlock.injEq, true_and] at hb
          subst hb
          simp [getRSAPrivKey, pemDecode, hrf, hp]
        · refine ⟨by simp [getRSAPrivKey, pemDecode, hrf, hp],
            by simp [getRSAPrivKey, pemDecode, hrf, hp],
            by simp [getRSAPrivKey, pemDecode, hrf, hp], ?_⟩
          intro b hb
          simp only [Option.some.injEq, FileContents.pemBlock.injEq, true_and] at hb
          subst hb
          simp [getRSAPrivKey, pemDecode, hrf, hp]
      · refine ⟨by simp [getRSAPrivKey, pemDecode, hrf, ht],
          by simp [getRSAPrivKey, pemDecode, hrf, ht], ?_, ?_⟩
        · constructor
          · intro _
            exact ⟨t, bytes, rfl, ht⟩
          · intro _
            exact ⟨t, by simp [getRSAPrivKey, pemDecode, hrf, ht]⟩
        · intro b hb
          simp only [Option.some.injEq, FileContents.pemBlock.injEq] at hb
          exact absurd hb.1 ht

/-- A concrete file system for the key-loading witness: the single file
holds a PEM block of the right type. -/
def witReadFile : String → Option FileContents :=
  fun _ => some (.pemBlock "RSA PRIVATE KEY" [48, 130])

/-- A concrete PKCS#1 parser outcome for the key-loading witness. -/
def witParse : List Nat → Except String RSAPrivateKey :=
  fun _ => .ok ⟨9⟩

theorem getRSAPrivKey_taxonomy_witness :
    (getRSAPrivKey witReadFile witParse "key.pem" = .error .keyReadFailed ↔
      witReadFile "key.pem" = none) ∧
    getRSAPrivKey witReadFile witParse "key.pem" = .ok ⟨9⟩ :=
  ⟨(getRSAPrivKey_taxonomy witReadFile witParse "key.pem").1,
   (getRSAPrivKey_taxonomy witReadFile witParse "key.pem").2.2.2 [48, 130] rfl⟩
